import Mathlib

/-!
Verification of the DashBoard_Temp alert pipeline.

Shallow embedding of the alert-detection and alert-delivery core of the
`DashBoard_Temp` repository (`app/module/database.py`, `app/module/alertas.py`,
`app/module/alertas_manager.py`, `app/module/correo.py`, `app/main.py`).

Modelling conventions:
* Temperatures and timestamps are rationals (`ℚ`); a row's `fecha_hora` is
  measured in minutes, so the Python expression
  `(ultima.fecha_hora - anterior.fecha_hora).total_seconds() / 60` becomes a
  plain subtraction.
* A nullable SQL column is an `Option`.
* Python's stable `list.sort(key=...)` is modelled by `List.insertionSort`
  with the non-strict key order; a stable sort with respect to a total
  preorder is extensionally unique, so this is faithful to CPython's stable
  sort.
* Code that can raise (`TypeError` on `None >= float`) returns `Except`.
* The SQL fetches are modelled as a pure filter over an input list of rows;
  `now` is an explicit parameter.
-/

-- Batteries marks the `Rat` field operations `@[irreducible]`; restore
-- definitional reducibility so concrete runs of the embedded code evaluate
-- by `rfl` / `decide` (the kernel ignores reducibility, so proofs are
-- unaffected).
set_option allowUnsafeReducibility true in
attribute [semireducible] Rat.sub Rat.add Rat.mul Rat.inv Rat.ofScientific

/-- One row of the `telemetria_sensores` table as fetched by the queries in
`database.py` (the columns the alert logic uses). `temperatura` is nullable. -/
structure Row where
  ubicacion : String
  temperatura : Option ℚ
  fecha_hora : ℚ
  deriving Repr, DecidableEq

/-- An alert dictionary `{"ubicacion": ..., "nivel": ..., "texto": ...}` as
built in `database.py` and `alertas.py`. -/
structure Alerta where
  ubicacion : String
  nivel : String
  texto : String
  deriving Repr, DecidableEq

namespace Database

/-- The `prioridad` dict of `detect_temperature_spikes`
(`{"roja": 0, "amarilla": 1, "azul": 2}` with `.get(nivel, 9)`). -/
def prioridad (nivel : String) : Nat :=
  if nivel = "roja" then 0
  else if nivel = "amarilla" then 1
  else if nivel = "azul" then 2
  else 9

/-- The sort key order used by `alertas.sort(key=lambda x: prioridad.get(x["nivel"], 9))`. -/
def spikeLe (a b : Alerta) : Prop :=
  prioridad a.nivel ≤ prioridad b.nivel

instance : DecidableRel spikeLe := fun a b =>
  inferInstanceAs (Decidable (prioridad a.nivel ≤ prioridad b.nivel))

instance : IsTotal Alerta spikeLe := ⟨fun _ _ => Nat.le_total _ _⟩

instance : IsTrans Alerta spikeLe := ⟨fun _ _ _ h h' => Nat.le_trans h h'⟩

/-- The per-reading order of `lecturas.sort(key=lambda x: x["fecha_hora"])`. -/
def fechaLe (a b : Row) : Prop :=
  a.fecha_hora ≤ b.fecha_hora

instance : DecidableRel fechaLe := fun a b =>
  inferInstanceAs (Decidable (a.fecha_hora ≤ b.fecha_hora))

instance : IsTotal Row fechaLe := ⟨fun _ _ => le_total _ _⟩

instance : IsTrans Row fechaLe := ⟨fun _ _ _ h h' => le_trans h h'⟩

/-- A location group sorted by `fecha_hora` ascending
(`lecturas.sort(key=lambda x: x["fecha_hora"])`, a stable sort). -/
def sortLecturas (lecturas : List Row) : List Row :=
  lecturas.insertionSort fechaLe

/-- The body of the `for ubicacion, lecturas in datos.items()` loop of
`detect_temperature_spikes` (database.py lines 179-206): skip groups with
fewer than 2 readings, sort by timestamp, take the last reading, scan
backward from the second-to-last for the nearest prior reading with a
non-null temperature, guard `delta_min <= 0 or delta_min > 20`, then classify
with the `roja` / `amarilla` / `azul` rules in order.

The `| _, _ => Option.none` temperature fallback is unreachable from
`detect_temperature_spikes`, whose SQL `WHERE ... temperatura IS NOT NULL`
filter admits only rows with a present temperature. -/
def processGroup (ubicacion : String) (lecturas : List Row) : Option Alerta :=
  if lecturas.length < 2 then none
  else
    let sorted := sortLecturas lecturas
    match sorted.getLast?, sorted.dropLast.reverse.find? (fun r => r.temperatura.isSome) with
    | some ultima, some anterior =>
      match ultima.temperatura, anterior.temperatura with
      | some tu, some ta =>
        let delta_temp : ℚ := tu - ta
        let delta_min : ℚ := ultima.fecha_hora - anterior.fecha_hora
        if delta_min ≤ 0 ∨ delta_min > 20 then none
        else if delta_temp ≥ 4 ∧ delta_min ≤ 10 then
          some ⟨ubicacion, "roja", "SUBIDA CRITICA -> " ++ ubicacion ++ " !POSIBLE EMERGENCIA!"⟩
        else if delta_temp ≥ 5/2 ∧ delta_min ≤ 10 then
          some ⟨ubicacion, "amarilla", "Subida rapida -> " ++ ubicacion⟩
        else if delta_temp ≤ -5 ∧ delta_min ≤ 15 then
          some ⟨ubicacion, "azul", "Bajada brusca -> " ++ ubicacion ++ " -> Revisar sensor"⟩
        else none
      | _, _ => none
    | _, _ => none

/-- The keys of the `datos` dict in first-appearance order
(`datos.setdefault(loc, []).append(r)` keeps dict-insertion order). -/
def groupKeys (rows : List Row) : List String :=
  rows.foldl (fun ks r => if r.ubicacion ∈ ks then ks else ks ++ [r.ubicacion]) []

/-- `detect_temperature_spikes` (database.py lines 136-211) on the rows of
the table. The SQL fetch
`WHERE fecha_hora >= DATE_SUB(NOW(), INTERVAL 20 MINUTE) AND temperatura IS NOT NULL`
is the filter; then rows are grouped by `ubicacion`, each group is classified
by `processGroup`, and the alerts are stable-sorted by `prioridad`.

The SQL `ORDER BY ubicacion, fecha_hora DESC` only fixes the relative order
of rows in the input list; the input list stands for the fetched result in
that order. -/
def detect_temperature_spikes (now : ℚ) (raw : List Row) : List Alerta :=
  let rows := raw.filter (fun r => decide (now - 20 ≤ r.fecha_hora) && r.temperatura.isSome)
  if rows.isEmpty then []
  else
    let alertas := (groupKeys rows).filterMap
      (fun loc => processGroup loc (rows.filter (fun r => r.ubicacion == loc)))
    alertas.insertionSort spikeLe

end Database

namespace Alertas

/-- The `thresholds` section of `config/parametros.json`
(`{"warning": ..., "danger": ...}`). -/
structure Thresholds where
  warning : ℚ
  danger : ℚ
  deriving Repr, DecidableEq

/-- The configuration read by `generar_alertas`: the thresholds plus
`config.get("alertas", {}).get("detectar_spikes", False)`. -/
structure BackendConfig where
  thresholds : Thresholds
  detectar_spikes : Bool
  deriving Repr, DecidableEq

/-- The `prioridad` dict of `generar_alertas`
(`{"roja": 0, "amarilla": 1, "azul": 2}` with `.get(nivel, 99)`). -/
def prioridad (nivel : String) : Nat :=
  if nivel = "roja" then 0
  else if nivel = "amarilla" then 1
  else if nivel = "azul" then 2
  else 99

/-- The sort key order of `alertas.sort(key=lambda x: prioridad.get(x["nivel"], 99))`. -/
def alertaLe (a b : Alerta) : Prop :=
  prioridad a.nivel ≤ prioridad b.nivel

instance : DecidableRel alertaLe := fun a b =>
  inferInstanceAs (Decidable (prioridad a.nivel ≤ prioridad b.nivel))

instance : IsTotal Alerta alertaLe := ⟨fun _ _ => Nat.le_total _ _⟩

instance : IsTrans Alerta alertaLe := ⟨fun _ _ _ h h' => Nat.le_trans h h'⟩

/-- The per-reading branch of the threshold loop of `generar_alertas`
(alertas.py lines 75-86), for a reading whose `temperatura` is present:
`temp >= danger` appends a `roja` alert, else `temp >= warning` an
`amarilla` one, else nothing. -/
def evalThreshold (th : Thresholds) (ubic : String) (temp : ℚ) : Option Alerta :=
  if temp ≥ th.danger then
    some ⟨ubic, "roja", "TEMPERATURA CRITICA en " ++ ubic⟩
  else if temp ≥ th.warning then
    some ⟨ubic, "amarilla", "Temperatura elevada en " ++ ubic⟩
  else none

/-- The threshold loop `for r in lecturas:` of `generar_alertas`
(alertas.py lines 71-86). A reading with `temperatura = None` reaches
`temp >= thresholds["danger"]`, which in Python 3 raises
`TypeError: not supported between instances of NoneType and float`;
that exception is modelled as `Except.error`. -/
def thresholdAlerts (th : Thresholds) : List Row → Except String (List Alerta)
  | [] => .ok []
  | r :: rs =>
    match r.temperatura with
    | none => .error ("TypeError: NoneType >= float en " ++ r.ubicacion)
    | some temp =>
      match thresholdAlerts th rs with
      | .error e => .error e
      | .ok rest => .ok ((evalThreshold th r.ubicacion temp).toList ++ rest)

/-- `generar_alertas` (alertas.py lines 46-101): threshold alerts over the
latest readings, then (when `detectar_spikes` is enabled) the spike alerts,
concatenated and stable-sorted by `prioridad`. `lecturas` models the result
of `get_latest_readings(location)` and `spikeRows` the table rows that
`detect_temperature_spikes(location)` fetches from, both already restricted
to the requested location filter. -/
def generar_alertas (cfg : BackendConfig) (now : ℚ) (lecturas spikeRows : List Row) :
    Except String (List Alerta) :=
  match thresholdAlerts cfg.thresholds lecturas with
  | .error e => .error e
  | .ok th =>
    let alertas := th ++
      (if cfg.detectar_spikes then Database.detect_temperature_spikes now spikeRows else [])
    .ok (alertas.insertionSort alertaLe)

end Alertas

namespace AlertasManager

/-- The `email` section of the configuration, as read by
`AlertManager.enviar_alertas_si_toca` (`enabled`, `intervalo_envio_min`,
`destinatarios`). -/
structure EmailCfg where
  enabled : Bool
  intervalo_envio_min : ℚ
  destinatarios : List String
  deriving Repr, DecidableEq

/-- The mutable state of the `AlertManager` singleton
(`last_alert_sent`, `ultimas_alertas`); `last_alert_sent` is a wall-clock
time in minutes. -/
structure AlertState where
  last_alert_sent : Option ℚ
  ultimas_alertas : List Alerta
  deriving Repr, DecidableEq

/-- The state created by `AlertManager.__init__`. -/
def initState : AlertState := ⟨none, []⟩

/-- Observable effects of one `enviar_alertas_si_toca` tick, in program
order: the assignment of `ultimas_alertas` / `last_alert_sent`
(alertas_manager.py lines 92-93) and each `EnviarCorreoSSL` call of the
recipient loop (lines 105-113). -/
inductive TickEvent where
  | setState (t : ℚ) (alerts : List Alerta)
  | send (destinatario : String) (ok : Bool)
  deriving Repr, DecidableEq

/-- The throttle guard `if self.last_alert_sent and ahora - self.last_alert_sent < intervalo`
(alertas_manager.py line 83); `None` is falsy, a `datetime` is truthy. -/
def throttled (cfg : EmailCfg) (ahora : ℚ) (st : AlertState) : Bool :=
  match st.last_alert_sent with
  | some t => decide (ahora - t < cfg.intervalo_envio_min)
  | none => false

/-- `AlertManager.enviar_alertas_si_toca` (alertas_manager.py lines 69-115)
for one tick. `alertas` is the value produced by `generar_alertas()` on this
tick; `mailer d` is the boolean outcome of `EnviarCorreoSSL` for recipient
`d` (correo.py catches every `smtplib` exception internally and returns
`(False, errores)`, so a per-recipient failure is a returned `false`, never
an exception). Returns the new manager state and the tick's events. -/
def enviar_alertas_si_toca (cfg : EmailCfg) (ahora : ℚ) (alertas : List Alerta)
    (mailer : String → Bool) (st : AlertState) : AlertState × List TickEvent :=
  if cfg.enabled = false then (st, [])
  else if throttled cfg ahora st then (st, [])
  else if alertas.isEmpty then (st, [])
  else
    (⟨some ahora, alertas⟩,
      TickEvent.setState ahora alertas ::
        cfg.destinatarios.map (fun d => TickEvent.send d (mailer d)))

/-- The Mailer invocations recorded in a tick's event list. -/
def sentTo (ev : List TickEvent) : List (String × Bool) :=
  ev.filterMap (fun e =>
    match e with
    | TickEvent.send d ok => some (d, ok)
    | _ => none)

/-- An on-demand invocation of the aggregator (`/api/alerts`, the websocket
push and the status page call into `generar_alertas` /
`detect_temperature_spikes` without touching `alert_manager`): the body of
`generar_alertas` (alertas.py lines 46-101) neither reads nor writes
`last_alert_sent` / `ultimas_alertas`, so the dispatch state `st` of the
process passes through unchanged next to the computed result. -/
def onDemandAggregate (st : AlertState) (cfg : Alertas.BackendConfig) (now : ℚ)
    (lecturas spikeRows : List Row) : AlertState × Except String (List Alerta) :=
  (st, Alertas.generar_alertas cfg now lecturas spikeRows)

end AlertasManager

/-- Modelled from the spec (§4.2 steps 5-6), for comparison with the source
embedding `Database.processGroup`: given `deltaTemp` and `deltaMinutes` of a
location group, reject if `deltaMinutes <= 0` or `deltaMinutes > 20`, else
classify by the first matching rule in this exact order: `deltaTemp >= 4.0`
and `deltaMinutes <= 10` is critical (`roja`); else `deltaTemp >= 2.5` and
`deltaMinutes <= 10` is warning (`amarilla`); else `deltaTemp <= -5.0` and
`deltaMinutes <= 15` is info (`azul`); else no alert. -/
def specSpikeClassification (deltaTemp deltaMinutes : ℚ) : Option String :=
  if deltaMinutes ≤ 0 ∨ deltaMinutes > 20 then none
  else if deltaTemp ≥ 4 ∧ deltaMinutes ≤ 10 then some "roja"
  else if deltaTemp ≥ 5/2 ∧ deltaMinutes ≤ 10 then some "amarilla"
  else if deltaTemp ≤ -5 ∧ deltaMinutes ≤ 15 then some "azul"
  else none

-- Scratch checks against the spec's §8 examples (t in minutes, now = 20).
example :
    Database.detect_temperature_spikes 20
      [⟨"S1", some 20, 0⟩, ⟨"S1", some (49/2), 8⟩] =
    [⟨"S1", "roja", "SUBIDA CRITICA -> S1 !POSIBLE EMERGENCIA!"⟩] := by rfl

example :
    (Database.detect_temperature_spikes 20
      [⟨"S1", some 20, 0⟩, ⟨"S1", some (227/10), 8⟩]).map Alerta.nivel = ["amarilla"] := by
  rfl

example :
    (Database.detect_temperature_spikes 20
      [⟨"S1", some 25, 0⟩, ⟨"S1", some (39/2), 12⟩]).map Alerta.nivel = ["azul"] := by
  rfl

example :
    Database.detect_temperature_spikes 20
      [⟨"S1", some 20, 0⟩, ⟨"S1", some 23, 18⟩] = [] := by rfl

example :
    Database.detect_temperature_spikes 20 [⟨"S1", some 20, 5⟩] = [] := by rfl

/-! Helper lemmas about stable sorting and grouping. -/

section SortLemmas

variable {α : Type _} (r : α → α → Prop) [DecidableRel r]

/-- Inserting an element that satisfies `p` and is `r`-below every
`p`-element leaves it at the front of the `p`-filtered list. -/
theorem filter_orderedInsert_pos (p : α → Bool) (a : α) (l : List α)
    (ha : p a = true) (h : ∀ b, p b = true → r a b) :
    (l.orderedInsert r a).filter p = a :: l.filter p := by
  induction l with
  | nil => simp [List.orderedInsert, ha]
  | cons b l ih =>
    by_cases hr : r a b
    · simp [List.orderedInsert, hr, List.filter, ha]
    · have hb : p b = false := by
        cases hpb : p b with
        | false => rfl
        | true => exact absurd (h b hpb) hr
      simp [List.orderedInsert, hr, List.filter, hb, ih]

/-- Inserting an element that fails `p` does not change the `p`-filtered
list. -/
theorem filter_orderedInsert_neg (p : α → Bool) (a : α) (l : List α)
    (ha : p a = false) :
    (l.orderedInsert r a).filter p = l.filter p := by
  induction l with
  | nil => simp [List.orderedInsert, ha]
  | cons b l ih =>
    by_cases hr : r a b
    · simp [List.orderedInsert, hr, List.filter, ha]
    · cases hb : p b with
      | false => simp [List.orderedInsert, hr, List.filter, hb, ih]
      | true => simp [List.orderedInsert, hr, List.filter, hb, ih]

/-- Stability of `insertionSort`: the sublist of elements of one key class
(`p` holds exactly on a set of pairwise `r`-equivalent elements) is
unchanged by the sort. -/
theorem filter_insertionSort (p : α → Bool)
    (h : ∀ x y, p x = true → p y = true → r x y) :
    ∀ l : List α, (l.insertionSort r).filter p = l.filter p := by
  intro l
  induction l with
  | nil => rfl
  | cons a l ih =>
    cases ha : p a with
    | true =>
      rw [List.insertionSort, filter_orderedInsert_pos r p a _ ha (fun b hb => h a b ha hb), ih]
      simp [List.filter, ha]
    | false =>
      rw [List.insertionSort, filter_orderedInsert_neg r p a _ ha, ih]
      simp [List.filter, ha]

end SortLemmas

/-! Helper lemmas about the spike detector. -/

namespace Database

theorem groupKeys_aux_nodup (rows : List Row) :
    ∀ acc : List String, acc.Nodup →
      (rows.foldl (fun ks r => if r.ubicacion ∈ ks then ks else ks ++ [r.ubicacion]) acc).Nodup := by
  induction rows with
  | nil => intro acc h; exact h
  | cons r rows ih =>
    intro acc h
    simp only [List.foldl_cons]
    by_cases hm : r.ubicacion ∈ acc
    · rw [if_pos hm]; exact ih acc h
    · rw [if_neg hm]
      refine ih _ ?_
      simp [List.nodup_append, h, hm]

/-- The keys of the `datos` dict are pairwise distinct. -/
theorem groupKeys_nodup (rows : List Row) : (groupKeys rows).Nodup :=
  groupKeys_aux_nodup rows [] List.nodup_nil

/-- Every alert `processGroup` emits carries the group's location and one of
the three source levels. -/
theorem processGroup_some {loc : String} {g : List Row} {a : Alerta}
    (h : processGroup loc g = some a) :
    a.ubicacion = loc ∧ (a.nivel = "roja" ∨ a.nivel = "amarilla" ∨ a.nivel = "azul") := by
  unfold processGroup at h
  split at h
  · exact absurd h (by simp)
  · dsimp only at h
    split at h
    · split at h
      · split at h
        · exact absurd h (by simp)
        · split at h
          · cases h; exact ⟨rfl, Or.inl rfl⟩
          · split at h
            · cases h; exact ⟨rfl, Or.inr (Or.inl rfl)⟩
            · split at h
              · cases h; exact ⟨rfl, Or.inr (Or.inr rfl)⟩
              · exact absurd h (by simp)
      · exact absurd h (by simp)
    · exact absurd h (by simp)

end Database

namespace Database

theorem filterMap_filter_not_mem {f : String → Option Alerta}
    (hf : ∀ k a, f k = some a → a.ubicacion = k) {loc : String} :
    ∀ ks : List String, loc ∉ ks →
      (ks.filterMap f).filter (fun a => a.ubicacion == loc) = [] := by
  intro ks
  induction ks with
  | nil => intro _; rfl
  | cons k ks ih =>
    intro hloc
    have hk : k ≠ loc := fun h => hloc (h ▸ List.mem_cons_self k ks)
    have hks : loc ∉ ks := fun h => hloc (List.mem_cons_of_mem k h)
    cases hfk : f k with
    | none => simpa [List.filterMap_cons, hfk] using ih hks
    | some a =>
      have ha : a.ubicacion = k := hf k a hfk
      have : (a.ubicacion == loc) = false := by
        simp [ha, hk]
      simp [List.filterMap_cons, hfk, List.filter, this, ih hks]

/-- Over pairwise-distinct keys, a key-indexed `filterMap` yields at most one
alert per location. -/
theorem filterMap_filter_length {f : String → Option Alerta}
    (hf : ∀ k a, f k = some a → a.ubicacion = k) :
    ∀ ks : List String, ks.Nodup → ∀ loc : String,
      ((ks.filterMap f).filter (fun a => a.ubicacion == loc)).length ≤ 1 := by
  intro ks
  induction ks with
  | nil => intro _ loc; simp
  | cons k ks ih =>
    intro hnd loc
    have hk : k ∉ ks := (List.nodup_cons.mp hnd).1
    have hnd' : ks.Nodup := (List.nodup_cons.mp hnd).2
    cases hfk : f k with
    | none => simpa [List.filterMap_cons, hfk] using ih hnd' loc
    | some a =>
      by_cases he : a.ubicacion == loc
      · have ha : a.ubicacion = k := hf k a hfk
        have hloc : loc ∉ ks := by
          have : k = loc := by simpa [ha] using he
          exact this ▸ hk
        simp [List.filterMap_cons, hfk, List.filter, he,
          filterMap_filter_not_mem hf ks hloc]
      · have he' : (a.ubicacion == loc) = false := by
          simpa using he
        simpa [List.filterMap_cons, hfk, List.filter, he'] using ih hnd' loc

end Database

/-! Claim theorems. -/

/-- Claim C1: for every location group of the 20-minute window with at least
two readings and a nearest prior non-null-temperature reference (`anterior`,
found scanning backward from the second-to-last reading of the
timestamp-sorted group), the spike detector's per-group classification
agrees with the spec's rule table `specSpikeClassification`: first matching
rule wins in the exact order roja (deltaTemp >= 4.0 and deltaMinutes <= 10),
amarilla (deltaTemp >= 2.5 and deltaMinutes <= 10), azul (deltaTemp <= -5.0
and deltaMinutes <= 15), else no alert; and a group with deltaMinutes <= 0
or deltaMinutes > 20 is skipped with no alert. At most one alert (an
`Option`) is produced, carrying the group's location. -/
theorem claim_c1_spike_classification (loc : String) (lecturas : List Row)
    (ultima anterior : Row) (tu ta : ℚ)
    (h2 : 2 ≤ lecturas.length)
    (hlast : (Database.sortLecturas lecturas).getLast? = some ultima)
    (href : (Database.sortLecturas lecturas).dropLast.reverse.find?
        (fun r => r.temperatura.isSome) = some anterior)
    (htu : ultima.temperatura = some tu)
    (hta : anterior.temperatura = some ta) :
    (Database.processGroup loc lecturas).map (fun a => (a.ubicacion, a.nivel)) =
      (specSpikeClassification (tu - ta) (ultima.fecha_hora - anterior.fecha_hora)).map
        (fun nivel => (loc, nivel)) := by
  unfold Database.processGroup specSpikeClassification
  rw [if_neg (by omega)]
  dsimp only
  rw [hlast, href]
  dsimp only
  rw [htu, hta]
  dsimp only
  split_ifs <;> rfl

/-- Concrete run of `claim_c1_spike_classification` on the spec's first §8
example: readings 20.0 °C at t=0 and 24.5 °C at t=8 min give the roja rule. -/
theorem claim_c1_spike_classification_witness :
    (Database.processGroup "S1" [⟨"S1", some 20, 0⟩, ⟨"S1", some (49/2), 8⟩]).map
        (fun a => (a.ubicacion, a.nivel)) =
      (specSpikeClassification ((49/2 : ℚ) - 20) ((8 : ℚ) - 0)).map
        (fun nivel => ("S1", nivel)) :=
  claim_c1_spike_classification "S1" [⟨"S1", some 20, 0⟩, ⟨"S1", some (49/2), 8⟩]
    ⟨"S1", some (49/2), 8⟩ ⟨"S1", some 20, 0⟩ (49/2) 20
    (by decide) (by rfl) (by rfl) rfl rfl

/-- Claim C9: on every call of the spike detector, at most one alert per
location appears in the result, and the empty input produces the empty
list. -/
theorem claim_c9_one_alert_per_location :
    (∀ (now : ℚ) (raw : List Row) (loc : String),
      ((Database.detect_temperature_spikes now raw).filter
          (fun a => a.ubicacion == loc)).length ≤ 1) ∧
    ∀ now : ℚ, Database.detect_temperature_spikes now [] = [] := by
  constructor
  · intro now raw loc
    unfold Database.detect_temperature_spikes
    dsimp only
    split
    · simp
    · set rows := raw.filter
        (fun r => decide (now - 20 ≤ r.fecha_hora) && r.temperatura.isSome) with hrows
      set f := fun k => Database.processGroup k (rows.filter (fun r => r.ubicacion == k))
        with hfdef
      have hf : ∀ k a, f k = some a → a.ubicacion = k :=
        fun k a h => (Database.processGroup_some h).1
      have hperm : List.Perm
          (List.insertionSort Database.spikeLe ((Database.groupKeys rows).filterMap f))
          ((Database.groupKeys rows).filterMap f) :=
        List.perm_insertionSort Database.spikeLe _
      have hlen := (hperm.filter (fun a => a.ubicacion == loc)).length_eq
      rw [hlen]
      exact Database.filterMap_filter_length hf _ (Database.groupKeys_nodup rows) loc
  · intro now
    rfl

/-- Claim C10: the list returned by the spike detector alone is already
sorted by the priority roja = 0 < amarilla = 1 < azul = 2 (every alert's
key is less than or equal to every later alert's key), and every emitted
level is one of the three, so no amarilla or azul alert precedes a roja
one and no azul alert precedes an amarilla one. -/
theorem claim_c10_spike_output_sorted (now : ℚ) (raw : List Row) :
    (Database.detect_temperature_spikes now raw).Pairwise Database.spikeLe ∧
    (Database.detect_temperature_spikes now raw).all
      (fun a => a.nivel == "roja" || a.nivel == "amarilla" || a.nivel == "azul") = true := by
  constructor
  · unfold Database.detect_temperature_spikes
    dsimp only
    split
    · exact List.Pairwise.nil
    · exact List.sorted_insertionSort Database.spikeLe _
  · rw [List.all_eq_true]
    intro a ha
    unfold Database.detect_temperature_spikes at ha
    dsimp only at ha
    split at ha
    · simp at ha
    · rw [List.mem_insertionSort] at ha
      obtain ⟨k, _, hpk⟩ := List.mem_filterMap.mp ha
      rcases (Database.processGroup_some hpk).2 with h | h | h <;> simp [h]

/-- Claim C3: for a reading with a present temperature and configured
thresholds with `danger > warning`, the threshold evaluator yields exactly
one roja alert when `temperature >= danger`, exactly one amarilla alert when
`warning <= temperature < danger`, and no alert when
`temperature < warning`. -/
theorem claim_c3_threshold_rules (th : Alertas.Thresholds) (ubic : String) (temp : ℚ)
    (hwd : th.warning < th.danger) :
    (th.danger ≤ temp →
      Alertas.evalThreshold th ubic temp =
        some ⟨ubic, "roja", "TEMPERATURA CRITICA en " ++ ubic⟩) ∧
    (th.warning ≤ temp → temp < th.danger →
      Alertas.evalThreshold th ubic temp =
        some ⟨ubic, "amarilla", "Temperatura elevada en " ++ ubic⟩) ∧
    (temp < th.warning → Alertas.evalThreshold th ubic temp = none) := by
  refine ⟨fun h => ?_, fun h1 h2 => ?_, fun h => ?_⟩ <;> unfold Alertas.evalThreshold
  · rw [if_pos h]
  · rw [if_neg (not_le.mpr h2), if_pos h1]
  · rw [if_neg (not_le.mpr (lt_trans h hwd)), if_neg (not_le.mpr h)]

/-- Concrete run of `claim_c3_threshold_rules`: with warning 25 and danger
30, a 31 °C reading yields the single roja alert. -/
theorem claim_c3_threshold_rules_witness :
    Alertas.evalThreshold ⟨25, 30⟩ "CPD" 31 =
      some ⟨"CPD", "roja", "TEMPERATURA CRITICA en CPD"⟩ :=
  (claim_c3_threshold_rules ⟨25, 30⟩ "CPD" 31 (by decide)).1 (by decide)

/-- Claim C6 is refuted by the code: a latest reading whose `temperatura` is
NULL does not produce "no alert, no error". The threshold loop of
`generar_alertas` evaluates `temp >= thresholds["danger"]` with
`temp = None`, which raises `TypeError` in Python 3 and aborts the whole
aggregation call (no skip-this-item policy exists in that loop). -/
theorem claim_c6_null_temperature_raises :
    Alertas.generar_alertas ⟨⟨25, 30⟩, true⟩ 20 [⟨"CPD", none, 0⟩] [] =
      Except.error "TypeError: NoneType >= float en CPD" := rfl

/-- Claim C7: whenever the threshold pass succeeds, the aggregator's output
is the threshold alerts concatenated with the spike alerts (when enabled),
stable-sorted by the priority roja = 0, amarilla = 1, azul = 2,
unrecognized = 99: the output is a permutation of the concatenation (no
deduplication), its priority keys are pairwise nondecreasing (so no
amarilla or azul alert ever precedes a roja one), and each priority class
keeps its pre-sort relative order (filtering the output at any key equals
filtering the concatenation). -/
theorem claim_c7_aggregator_order (cfg : Alertas.BackendConfig) (now : ℚ)
    (lecturas spikeRows : List Row) (th : List Alerta)
    (hth : Alertas.thresholdAlerts cfg.thresholds lecturas = Except.ok th) :
    ∃ out, Alertas.generar_alertas cfg now lecturas spikeRows = Except.ok out ∧
      List.Perm out (th ++ (if cfg.detectar_spikes then
        Database.detect_temperature_spikes now spikeRows else [])) ∧
      out.Pairwise Alertas.alertaLe ∧
      ∀ k : Nat, out.filter (fun a => Alertas.prioridad a.nivel == k) =
        (th ++ (if cfg.detectar_spikes then
          Database.detect_temperature_spikes now spikeRows else [])).filter
          (fun a => Alertas.prioridad a.nivel == k) := by
  unfold Alertas.generar_alertas
  rw [hth]
  dsimp only
  refine ⟨_, rfl, List.perm_insertionSort _ _, List.sorted_insertionSort _ _, fun k => ?_⟩
  refine filter_insertionSort Alertas.alertaLe _ (fun x y hx hy => ?_) _
  have hx' : Alertas.prioridad x.nivel = k := by simpa using hx
  have hy' : Alertas.prioridad y.nivel = k := by simpa using hy
  unfold Alertas.alertaLe
  rw [hx', hy']

/-- Concrete run of `claim_c7_aggregator_order`: a single 31 °C reading with
warning 25 / danger 30 and spike detection disabled. -/
theorem claim_c7_aggregator_order_witness :
    ∃ out, Alertas.generar_alertas ⟨⟨25, 30⟩, false⟩ 20 [⟨"A", some 31, 0⟩] [] =
        Except.ok out ∧
      List.Perm out ([⟨"A", "roja", "TEMPERATURA CRITICA en A"⟩] ++
        (if (⟨⟨25, 30⟩, false⟩ : Alertas.BackendConfig).detectar_spikes then
          Database.detect_temperature_spikes 20 [] else [])) ∧
      out.Pairwise Alertas.alertaLe ∧
      ∀ k : Nat, out.filter (fun a => Alertas.prioridad a.nivel == k) =
        (([⟨"A", "roja", "TEMPERATURA CRITICA en A"⟩] : List Alerta) ++
          (if (⟨⟨25, 30⟩, false⟩ : Alertas.BackendConfig).detectar_spikes then
            Database.detect_temperature_spikes 20 [] else [])).filter
          (fun a => Alertas.prioridad a.nivel == k) :=
  claim_c7_aggregator_order ⟨⟨25, 30⟩, false⟩ 20 [⟨"A", some 31, 0⟩] []
    [⟨"A", "roja", "TEMPERATURA CRITICA en A"⟩] (by rfl)

/-- Claim C8: an on-demand invocation of the aggregator leaves the dispatch
state (`last_alert_sent`, `ultimas_alertas`) unchanged, and its computed
alerts do not depend on that state. -/
theorem claim_c8_on_demand_state_frame (st st2 : AlertasManager.AlertState)
    (cfg : Alertas.BackendConfig) (now : ℚ) (lecturas spikeRows : List Row) :
    (AlertasManager.onDemandAggregate st cfg now lecturas spikeRows).1 = st ∧
    (AlertasManager.onDemandAggregate st cfg now lecturas spikeRows).2 =
      (AlertasManager.onDemandAggregate st2 cfg now lecturas spikeRows).2 :=
  ⟨rfl, rfl⟩

namespace AlertasManager

/-- The Mailer invocations of the recipient loop, one per configured
recipient, in configuration order, each paired with its own outcome. -/
theorem sentTo_map_send (dest : List String) (m : String → Bool) :
    sentTo (dest.map (fun d => TickEvent.send d (m d))) = dest.map (fun d => (d, m d)) := by
  induction dest with
  | nil => rfl
  | cons d dest ih =>
    simp only [List.map_cons, sentTo, List.filterMap_cons] at ih ⊢
    rw [ih]

/-- A dispatching tick: with email enabled, the throttle open and a
non-empty alert batch, the tick's result is fully determined. -/
theorem enviar_dispatches (cfg : EmailCfg) (ahora : ℚ) (alertas : List Alerta)
    (mailer : String → Bool) (st : AlertState)
    (hen : cfg.enabled = true)
    (hthr : throttled cfg ahora st = false)
    (hne : alertas ≠ []) :
    enviar_alertas_si_toca cfg ahora alertas mailer st =
      (⟨some ahora, alertas⟩,
        TickEvent.setState ahora alertas ::
          cfg.destinatarios.map (fun d => TickEvent.send d (mailer d))) := by
  unfold enviar_alertas_si_toca
  rw [if_neg (by simp [hen]), if_neg (by simp [hthr]),
    if_neg (by simp [List.isEmpty_iff, hne])]

end AlertasManager

/-- Claim C2: a tick whose `last_alert_sent` is set and within the
configured interval of `ahora` performs no dispatch and no state mutation
(first conjunct); consequently two consecutive ticks inside one interval
produce exactly one Mailer invocation batch — the first tick's, one send
per configured recipient — and the second tick leaves the state of the
first untouched (second conjunct). -/
theorem claim_c2_interval_throttle :
    (∀ (cfg : AlertasManager.EmailCfg) (ahora : ℚ) (alertas : List Alerta)
        (mailer : String → Bool) (st : AlertasManager.AlertState) (t : ℚ),
      st.last_alert_sent = some t → ahora - t < cfg.intervalo_envio_min →
        AlertasManager.enviar_alertas_si_toca cfg ahora alertas mailer st = (st, [])) ∧
    ∀ (cfg : AlertasManager.EmailCfg) (t1 t2 : ℚ) (a1 a2 : List Alerta)
        (m1 m2 : String → Bool) (st0 : AlertasManager.AlertState),
      cfg.enabled = true → AlertasManager.throttled cfg t1 st0 = false → a1 ≠ [] →
      t2 - t1 < cfg.intervalo_envio_min →
      AlertasManager.sentTo
          ((AlertasManager.enviar_alertas_si_toca cfg t1 a1 m1 st0).2 ++
            (AlertasManager.enviar_alertas_si_toca cfg t2 a2 m2
              (AlertasManager.enviar_alertas_si_toca cfg t1 a1 m1 st0).1).2) =
        cfg.destinatarios.map (fun d => (d, m1 d)) ∧
      AlertasManager.enviar_alertas_si_toca cfg t2 a2 m2
          (AlertasManager.enviar_alertas_si_toca cfg t1 a1 m1 st0).1 =
        ((AlertasManager.enviar_alertas_si_toca cfg t1 a1 m1 st0).1, []) := by
  have hskip : ∀ (cfg : AlertasManager.EmailCfg) (ahora : ℚ) (alertas : List Alerta)
      (mailer : String → Bool) (st : AlertasManager.AlertState) (t : ℚ),
      st.last_alert_sent = some t → ahora - t < cfg.intervalo_envio_min →
        AlertasManager.enviar_alertas_si_toca cfg ahora alertas mailer st = (st, []) := by
    intro cfg ahora alertas mailer st t hlast hlt
    unfold AlertasManager.enviar_alertas_si_toca
    by_cases hen : cfg.enabled = false
    · rw [if_pos hen]
    · rw [if_neg hen,
        if_pos (by simp [AlertasManager.throttled, hlast, hlt])]
  refine ⟨hskip, ?_⟩
  intro cfg t1 t2 a1 a2 m1 m2 st0 hen hthr hne hlt
  have h1 := AlertasManager.enviar_dispatches cfg t1 a1 m1 st0 hen hthr hne
  rw [h1]
  have h2 := hskip cfg t2 a2 m2 ⟨some t1, a1⟩ t1 rfl hlt
  dsimp only
  rw [h2]
  refine ⟨?_, rfl⟩
  simp only [List.append_nil, AlertasManager.sentTo, List.filterMap_cons]
  exact AlertasManager.sentTo_map_send cfg.destinatarios m1

/-- Concrete run of `claim_c2_interval_throttle`: a 60-minute interval, a
dispatch at t = 100 and a second tick at t = 130 with a non-empty batch:
the second tick neither sends nor mutates. -/
theorem claim_c2_interval_throttle_witness :
    AlertasManager.sentTo
        ((AlertasManager.enviar_alertas_si_toca ⟨true, 60, ["ops@cpd"]⟩ 100
            [⟨"CPD", "roja", "t"⟩] (fun _ => true) ⟨none, []⟩).2 ++
          (AlertasManager.enviar_alertas_si_toca ⟨true, 60, ["ops@cpd"]⟩ 130
            [⟨"CPD", "roja", "t"⟩] (fun _ => true)
            (AlertasManager.enviar_alertas_si_toca ⟨true, 60, ["ops@cpd"]⟩ 100
              [⟨"CPD", "roja", "t"⟩] (fun _ => true) ⟨none, []⟩).1).2) =
      ["ops@cpd"].map (fun d => (d, (fun _ => true : String → Bool) d)) ∧
    AlertasManager.enviar_alertas_si_toca ⟨true, 60, ["ops@cpd"]⟩ 130
        [⟨"CPD", "roja", "t"⟩] (fun _ => true)
        (AlertasManager.enviar_alertas_si_toca ⟨true, 60, ["ops@cpd"]⟩ 100
          [⟨"CPD", "roja", "t"⟩] (fun _ => true) ⟨none, []⟩).1 =
      ((AlertasManager.enviar_alertas_si_toca ⟨true, 60, ["ops@cpd"]⟩ 100
          [⟨"CPD", "roja", "t"⟩] (fun _ => true) ⟨none, []⟩).1, []) :=
  claim_c2_interval_throttle.2 ⟨true, 60, ["ops@cpd"]⟩ 100 130
    [⟨"CPD", "roja", "t"⟩] [⟨"CPD", "roja", "t"⟩] (fun _ => true) (fun _ => true)
    ⟨none, []⟩ rfl rfl (by decide) (by decide)

/-- Claim C4: on a dispatching tick, `last_alert_sent` and
`ultimas_alertas` are set to the tick's time and batch, and the state
assignment is the first event of the tick, before every Mailer call; the
Mailer is invoked once per configured recipient whatever the outcome of
each individual send (the `mailer` function is arbitrary, so a `false`
result for one recipient neither reverts the state components — which do
not depend on `mailer` at all — nor removes any later recipient from the
invocation list). -/
theorem claim_c4_state_before_delivery (cfg : AlertasManager.EmailCfg) (ahora : ℚ)
    (alertas : List Alerta) (mailer : String → Bool) (st : AlertasManager.AlertState)
    (hen : cfg.enabled = true)
    (hthr : AlertasManager.throttled cfg ahora st = false)
    (hne : alertas ≠ []) :
    (AlertasManager.enviar_alertas_si_toca cfg ahora alertas mailer st).1 =
      ⟨some ahora, alertas⟩ ∧
    (AlertasManager.enviar_alertas_si_toca cfg ahora alertas mailer st).2 =
      AlertasManager.TickEvent.setState ahora alertas ::
        cfg.destinatarios.map (fun d => AlertasManager.TickEvent.send d (mailer d)) ∧
    AlertasManager.sentTo
        (AlertasManager.enviar_alertas_si_toca cfg ahora alertas mailer st).2 =
      cfg.destinatarios.map (fun d => (d, mailer d)) := by
  have h := AlertasManager.enviar_dispatches cfg ahora alertas mailer st hen hthr hne
  rw [h]
  refine ⟨rfl, rfl, ?_⟩
  simp only [AlertasManager.sentTo, List.filterMap_cons]
  exact AlertasManager.sentTo_map_send cfg.destinatarios mailer

/-- Concrete run of `claim_c4_state_before_delivery` with two recipients
and a mailer that fails for the first: the state is still set, and both
recipients are still invoked, the second with a successful outcome. -/
theorem claim_c4_state_before_delivery_witness :
    (AlertasManager.enviar_alertas_si_toca ⟨true, 60, ["a@x", "b@x"]⟩ 10
        [⟨"CPD", "roja", "t"⟩] (fun d => d == "b@x") ⟨none, []⟩).1 =
      ⟨some 10, [⟨"CPD", "roja", "t"⟩]⟩ ∧
    (AlertasManager.enviar_alertas_si_toca ⟨true, 60, ["a@x", "b@x"]⟩ 10
        [⟨"CPD", "roja", "t"⟩] (fun d => d == "b@x") ⟨none, []⟩).2 =
      AlertasManager.TickEvent.setState 10 [⟨"CPD", "roja", "t"⟩] ::
        ["a@x", "b@x"].map
          (fun d => AlertasManager.TickEvent.send d ((fun d => d == "b@x") d)) ∧
    AlertasManager.sentTo
        (AlertasManager.enviar_alertas_si_toca ⟨true, 60, ["a@x", "b@x"]⟩ 10
          [⟨"CPD", "roja", "t"⟩] (fun d => d == "b@x") ⟨none, []⟩).2 =
      ["a@x", "b@x"].map (fun d => (d, (fun d => d == "b@x") d)) :=
  claim_c4_state_before_delivery ⟨true, 60, ["a@x", "b@x"]⟩ 10
    [⟨"CPD", "roja", "t"⟩] (fun d => d == "b@x") ⟨none, []⟩ rfl rfl (by decide)

/-- Claim C5: a tick whose aggregation yields zero alerts neither updates
`last_alert_sent` / `ultimas_alertas` nor invokes the Mailer, whatever the
configuration, clock and prior state (this also covers the due case, so an
empty cycle never consumes the throttle window). -/
theorem claim_c5_empty_cycle_no_effect (cfg : AlertasManager.EmailCfg) (ahora : ℚ)
    (mailer : String → Bool) (st : AlertasManager.AlertState) :
    AlertasManager.enviar_alertas_si_toca cfg ahora [] mailer st = (st, []) := by
  unfold AlertasManager.enviar_alertas_si_toca
  split_ifs with h1 h2 h3
  · rfl
  · rfl
  · rfl
  · exact absurd rfl h3
